import Mathlib

/-!
Shallow embedding of the XMLHttpRequest override
(src/src/interceptors/XMLHttpRequest/XMLHttpRequestOverride.ts) and of the
leaf capabilities it consumes, with theorems settling the claims about the
client state machine, the resolver pipeline, the body coercer, listener
registration and the passthrough adapter.

Conventions of the embedding:
- JavaScript strings are `String`, numbers used by the override are `Nat`,
  nullable values are `Option`.
- A callback function value is identified by a `Nat` tag: the override never
  calls the request-phase callbacks itself, it only stores, compares and
  forwards them, so identity is all that matters.
- Every `this.trigger(name, init?)` call of the source is recorded as one
  entry of an event log (`Evt`); `trigger` dispatches the direct callback
  slot first and then the registered listeners, which does not change which
  events are fired, so the log models the fired-event sequence exactly.
-/

namespace XHR

/-- JSON structured data, produced by the JSON parser of the body coercer.
Numbers keep their source lexeme, which is all the embedding needs (their
JavaScript truthiness is decidable from the lexeme). -/
inductive JsonVal where
  | null
  | bool (b : Bool)
  | num (lexeme : String)
  | str (s : String)
  | arr (elems : List JsonVal)
  | obj (members : List (String × JsonVal))

/-- JSON whitespace characters: space, tab, line feed, carriage return. -/
def isJsonWs (c : Char) : Bool :=
  c.toNat = 32 || c.toNat = 9 || c.toNat = 10 || c.toNat = 13

/-- Drops leading JSON whitespace. -/
def skipWs : List Char → List Char
  | [] => []
  | c :: cs => if isJsonWs c then skipWs cs else c :: cs

/-- Consumes the given character codes from the front of the input, or fails. -/
def charsPfx : List Nat → List Char → Option (List Char)
  | [], rest => some rest
  | n :: ns, c :: rest => if c.toNat = n then charsPfx ns rest else none
  | _ :: _, [] => none

/-- Value of a hexadecimal digit. -/
def hexVal (c : Char) : Option Nat :=
  if 48 ≤ c.toNat ∧ c.toNat ≤ 57 then some (c.toNat - 48)
  else if 97 ≤ c.toNat ∧ c.toNat ≤ 102 then some (c.toNat - 97 + 10)
  else if 65 ≤ c.toNat ∧ c.toNat ≤ 70 then some (c.toNat - 65 + 10)
  else none

/-- Translation of a single-character JSON string escape (the character after
the backslash) to the character code it denotes. -/
def escCharCode (n : Nat) : Option Nat :=
  if n = 34 then some 34        -- quotation mark
  else if n = 92 then some 92   -- backslash
  else if n = 47 then some 47   -- solidus
  else if n = 98 then some 8    -- backspace
  else if n = 102 then some 12  -- form feed
  else if n = 110 then some 10  -- line feed
  else if n = 114 then some 13  -- carriage return
  else if n = 116 then some 9   -- tab
  else none

/-- Parses the remainder of a JSON string literal (the opening quote already
consumed), returning the decoded characters and the rest of the input. -/
def parseStrChars : Nat → List Char → Option (List Char × List Char)
  | 0, _ => none
  | _, [] => none
  | Nat.succ fuel, c :: rest =>
    if c.toNat = 34 then some ([], rest)
    else if c.toNat = 92 then
      match rest with
      | [] => none
      | e :: rest2 =>
        if e.toNat = 117 then
          match rest2 with
          | a :: b :: c2 :: d :: rest3 =>
            match hexVal a, hexVal b, hexVal c2, hexVal d with
            | some ha, some hb, some hc, some hd =>
              (match parseStrChars fuel rest3 with
               | some (s, r) =>
                 some (Char.ofNat (((ha * 16 + hb) * 16 + hc) * 16 + hd) :: s, r)
               | none => none)
            | _, _, _, _ => none
          | _ => none
        else
          match escCharCode e.toNat with
          | some code =>
            (match parseStrChars fuel rest2 with
             | some (s, r) => some (Char.ofNat code :: s, r)
             | none => none)
          | none => none
    else if c.toNat < 32 then none
    else
      match parseStrChars fuel rest with
      | some (s, r) => some (c :: s, r)
      | none => none

/-- Decimal digit test. -/
def isDigitC (c : Char) : Bool := 48 ≤ c.toNat && c.toNat ≤ 57

/-- Parses the optional fraction part of a JSON number. -/
def parseFrac (cs : List Char) : Option (List Char × List Char) :=
  match cs with
  | c :: rest =>
    if c.toNat = 46 then
      (if (rest.takeWhile isDigitC).isEmpty then none
       else some (c :: rest.takeWhile isDigitC, rest.dropWhile isDigitC))
    else some ([], cs)
  | [] => some ([], [])

/-- Parses the optional exponent part of a JSON number. -/
def parseExp (cs : List Char) : Option (List Char × List Char) :=
  match cs with
  | c :: rest =>
    if c.toNat = 101 ∨ c.toNat = 69 then
      let sgnRest : List Char × List Char :=
        match rest with
        | s :: r2 => if s.toNat = 43 ∨ s.toNat = 45 then ([s], r2) else ([], rest)
        | [] => ([], [])
      (if (sgnRest.2.takeWhile isDigitC).isEmpty then none
       else some (c :: (sgnRest.1 ++ sgnRest.2.takeWhile isDigitC),
                  sgnRest.2.dropWhile isDigitC))
    else some ([], cs)
  | [] => some ([], [])

/-- Parses a JSON number token, keeping its lexeme. -/
def parseNumber (cs : List Char) : Option (JsonVal × List Char) :=
  let sgnRest : List Char × List Char :=
    match cs with
    | c :: rest => if c.toNat = 45 then ([c], rest) else ([], cs)
    | [] => ([], [])
  match sgnRest.2 with
  | c :: rest =>
    if ¬ isDigitC c then none
    else
      let ipRest : List Char × List Char :=
        if c.toNat = 48 then ([c], rest)
        else (c :: rest.takeWhile isDigitC, rest.dropWhile isDigitC)
      match parseFrac ipRest.2 with
      | none => none
      | some (fp, cs3) =>
        match parseExp cs3 with
        | none => none
        | some (ep, cs4) =>
          some (JsonVal.num (String.mk (sgnRest.1 ++ ipRest.1 ++ fp ++ ep)), cs4)
  | [] => none

/-- Parsing mode of the fueled JSON parser: a single value, the tail of an
array after its first element, or the tail of an object after its first
member. -/
inductive JMode where
  | value
  | arrTail
  | objTail

/-- Intermediate result of the fueled JSON parser. -/
inductive JPiece where
  | v (x : JsonVal)
  | vs (xs : List JsonVal)
  | kvs (ps : List (String × JsonVal))

/-- Fueled recursive-descent JSON parser over the character codes of the
JSON grammar (null, booleans, numbers, strings, arrays, objects). -/
def jstep : Nat → JMode → List Char → Option (JPiece × List Char)
  | 0, _, _ => none
  | Nat.succ fuel, JMode.value, cs =>
    match skipWs cs with
    | [] => none
    | c :: rest =>
      if c.toNat = 110 then
        match charsPfx [117, 108, 108] rest with
        | some rest2 => some (JPiece.v JsonVal.null, rest2)
        | none => none
      else if c.toNat = 116 then
        match charsPfx [114, 117, 101] rest with
        | some rest2 => some (JPiece.v (JsonVal.bool true), rest2)
        | none => none
      else if c.toNat = 102 then
        match charsPfx [97, 108, 115, 101] rest with
        | some rest2 => some (JPiece.v (JsonVal.bool false), rest2)
        | none => none
      else if c.toNat = 34 then
        match parseStrChars (rest.length + 1) rest with
        | some (s, rest2) => some (JPiece.v (JsonVal.str (String.mk s)), rest2)
        | none => none
      else if c.toNat = 91 then
        match skipWs rest with
        | [] => none
        | c2 :: rest2 =>
          if c2.toNat = 93 then some (JPiece.v (JsonVal.arr []), rest2)
          else
            match jstep fuel JMode.value (c2 :: rest2) with
            | some (JPiece.v x, rest3) =>
              (match jstep fuel JMode.arrTail rest3 with
               | some (JPiece.vs xs, rest4) =>
                   some (JPiece.v (JsonVal.arr (x :: xs)), rest4)
               | _ => none)
            | _ => none
      else if c.toNat = 123 then
        match skipWs rest with
        | [] => none
        | c2 :: rest2 =>
          if c2.toNat = 125 then some (JPiece.v (JsonVal.obj []), rest2)
          else if c2.toNat = 34 then
            match parseStrChars (rest2.length + 1) rest2 with
            | some (k, rest3) =>
              (match skipWs rest3 with
               | c3 :: rest4 =>
                 if c3.toNat = 58 then
                   match jstep fuel JMode.value rest4 with
                   | some (JPiece.v v, rest5) =>
                     (match jstep fuel JMode.objTail rest5 with
                      | some (JPiece.kvs ps, rest6) =>
                          some (JPiece.v (JsonVal.obj ((String.mk k, v) :: ps)), rest6)
                      | _ => none)
                   | _ => none
                 else none
               | [] => none)
            | none => none
          else none
      else parseNumber (c :: rest) |>.map (fun p => (JPiece.v p.1, p.2))
  | Nat.succ fuel, JMode.arrTail, cs =>
    match skipWs cs with
    | [] => none
    | c :: rest =>
      if c.toNat = 93 then some (JPiece.vs [], rest)
      else if c.toNat = 44 then
        match jstep fuel JMode.value rest with
        | some (JPiece.v x, rest2) =>
          (match jstep fuel JMode.arrTail rest2 with
           | some (JPiece.vs xs, rest3) => some (JPiece.vs (x :: xs), rest3)
           | _ => none)
        | _ => none
      else none
  | Nat.succ fuel, JMode.objTail, cs =>
    match skipWs cs with
    | [] => none
    | c :: rest =>
      if c.toNat = 125 then some (JPiece.kvs [], rest)
      else if c.toNat = 44 then
        match skipWs rest with
        | [] => none
        | c2 :: rest2 =>
          if c2.toNat = 34 then
            match parseStrChars (rest2.length + 1) rest2 with
            | some (k, rest3) =>
              (match skipWs rest3 with
               | c3 :: rest4 =>
                 if c3.toNat = 58 then
                   match jstep fuel JMode.value rest4 with
                   | some (JPiece.v v, rest5) =>
                     (match jstep fuel JMode.objTail rest5 with
                      | some (JPiece.kvs ps, rest6) =>
                          some (JPiece.kvs ((String.mk k, v) :: ps), rest6)
                      | _ => none)
                   | _ => none
                 else none
               | [] => none)
            | none => none
          else none
      else none

/-- Parses a complete JSON document: one value surrounded by optional
whitespace, with the whole input consumed; `none` on any grammar violation. -/
def jsonParse (s : String) : Option JsonVal :=
  let cs := s.toList
  match jstep (cs.length + 2) JMode.value cs with
  | some (JPiece.v x, rest) => if (skipWs rest).isEmpty then some x else none
  | _ => none

/-- Modelled from the spec: `parseJson` (src/utils/parseJson.ts is not under
src/; only its import site is). Per §4.5, the json mode of the Body Coercer
parses the text as structured data and a parse failure must not raise: it
returns the defined unparseable sentinel value (JavaScript `null`,
`JsonVal.null` here) instead of propagating the error. -/
def parseJson (s : String) : JsonVal :=
  match jsonParse s with
  | some v => v
  | none => JsonVal.null

/-- UTF-8 encoding of one character, as byte values. -/
def utf8EncodeChar (c : Char) : List Nat :=
  let n := c.toNat
  if n < 128 then [n]
  else if n < 2048 then [192 + n / 64, 128 + n % 64]
  else if n < 65536 then [224 + n / 4096, 128 + (n / 64) % 64, 128 + n % 64]
  else [240 + n / 262144, 128 + (n / 4096) % 64, 128 + (n / 64) % 64, 128 + n % 64]

/-- Modelled from the spec: `bufferFrom`
(src/interceptors/XMLHttpRequest/utils/bufferFrom.ts is not under src/).
Per §4.5 the arraybuffer mode encodes the text into a raw byte buffer; the
progress event of the mocked path carries the byte length of the body
(§4.3). The buffer is the UTF-8 byte sequence of the string. -/
def bufferFrom (s : String) : List Nat :=
  s.toList.foldr (fun c acc => utf8EncodeChar c ++ acc) []

/-- Modelled from the spec: the Header Store (headers-utils, an external
collaborator per §1/§4.1) is an ordered list of name-value entries with
case-insensitive lookup, order- and case-preserving iteration (`raw()`), and
appending registration. -/
abbrev HeadersL := List (String × String)

/-- Case-insensitive lookup of the first entry with the given name (the
Header Store `get` capability used by `getResponseHeader`). -/
def headersGet (hs : HeadersL) (name : String) : Option String :=
  match hs.find? (fun p => p.1.toLower == name.toLower) with
  | some p => some p.2
  | none => none

/-- One recorded `this.trigger(...)` call: the event name fired on the
instance. `readystatechange` carries the readyState the listeners observe
(the state was updated before the trigger); `progress` carries the
`loaded`/`total` fields of its ProgressEvent init. -/
inductive Evt where
  | readystatechange (state : Nat)
  | loadstart
  | progress (loaded total : Nat)
  | load
  | loadend
  | error
  | abort
deriving DecidableEq

/-- Shape of the `response` property: a plain string (default/text mode),
parsed JSON data (json mode; the unparseable sentinel is `jsonV .null`), a
Blob wrapping the text with a content type (blob mode), a raw byte buffer
(arraybuffer mode), or JavaScript `null` (the value stored by `reset`). -/
inductive XhrResponse where
  | text (s : String)
  | jsonV (v : JsonVal)
  | blob (content : String) (blobType : String)
  | buffer (bytes : List Nat)
  | nullJs

/-- JavaScript truthiness of a JSON value: `null`, `false`, zero-valued
numbers and the empty string are falsy; arrays and objects are truthy. -/
def jsTruthy : JsonVal → Bool
  | JsonVal.null => false
  | JsonVal.bool b => b
  | JsonVal.num lex =>
      (lex.toList.takeWhile (fun c => !(c.toNat = 101 || c.toNat = 69))).any
        (fun c => 49 ≤ c.toNat && c.toNat ≤ 57)
  | JsonVal.str s => !(s == "")
  | JsonVal.arr _ => true
  | JsonVal.obj _ => true

/-- JavaScript truthiness of a `response` value (the `this.response` operand
of the source's `mockedResponse.body && this.response` check). -/
def responseTruthy : XhrResponse → Bool
  | XhrResponse.text s => !(s == "")
  | XhrResponse.jsonV v => jsTruthy v
  | XhrResponse.blob _ _ => true
  | XhrResponse.buffer _ => true
  | XhrResponse.nullJs => false

/-- JavaScript `x || d` for an optional number (`undefined` and `0` are
falsy). -/
def jsOrNat : Option Nat → Nat → Nat
  | some v, d => if v = 0 then d else v
  | none, d => d

/-- JavaScript `x || d` for an optional string (`undefined` and the empty
string are falsy). -/
def jsOrStr : Option String → String → String
  | some v, d => if v = "" then d else v
  | none, d => d

/-- JavaScript truthiness of an optional string (`undefined` and the empty
string are falsy). -/
def jsTruthyOptStr : Option String → Bool
  | some s => !(s == "")
  | none => false

/-- Mock Response Descriptor returned by the resolver: optional status,
statusText, headers object and textual body. -/
structure MockedResponse where
  status : Option Nat := none
  statusText : Option String := none
  headers : Option HeadersL := none
  body : Option String := none

/-- The mutable per-call state container of one intercepted
`XMLHttpRequestOverride` instance. The readyState constants are
`UNSENT = 0`, `OPENED = 1`, `HEADERS_RECEIVED = 2`, `LOADING = 3`,
`DONE = 4`. Callback slots hold the identity of the stored callback
(`none` is the initial `null`). `events` is the ordered
`(eventName, listener)` list managed by `addEventListener` /
`removeEventListener` (field `_events` of the source). -/
structure Xhr where
  url : String
  method : String
  readyState : Nat
  withCredentials : Bool
  status : Nat
  statusText : String
  user : Option String
  password : Option String
  data : String
  isAsync : Option Bool
  response : XhrResponse
  responseText : Option String
  responseType : String
  responseURL : String
  timeout : Nat
  onreadystatechange : Option Nat
  onabort : Option Nat
  onerror : Option Nat
  onload : Option Nat
  onloadend : Option Nat
  onloadstart : Option Nat
  onprogress : Option Nat
  ontimeout : Option Nat
  requestHeaders : HeadersL
  responseHeaders : HeadersL
  events : List (String × Nat)

/-- The constructor of `XMLHttpRequestOverride`. -/
def newXhr : Xhr :=
  { url := "", method := "GET", readyState := 0, withCredentials := false
    status := 200, statusText := "OK", user := none, password := none
    data := "", isAsync := none, response := XhrResponse.text ""
    responseText := some "", responseType := "text", responseURL := ""
    timeout := 0, onreadystatechange := none, onabort := none, onerror := none
    onload := none, onloadend := none, onloadstart := none, onprogress := none
    ontimeout := none, requestHeaders := [], responseHeaders := []
    events := [] }

/-- Source `setReadyState(nextState)`: no-op when the state is unchanged;
otherwise updates `readyState` and, when the new state is not UNSENT,
triggers a `readystatechange` event (after the update). -/
def setReadyState (nextState : Nat) (x : Xhr) : Xhr × List Evt :=
  if nextState = x.readyState then (x, [])
  else
    let x2 : Xhr := { x with readyState := nextState }
    if nextState ≠ 0 then (x2, [Evt.readystatechange nextState]) else (x2, [])

/-- Source `reset()`: back to UNSENT (fires nothing, per `setReadyState`),
status 200/"OK", body and responses cleared, fresh header stores. -/
def reset (x : Xhr) : Xhr :=
  let x1 := (setReadyState 0 x).1
  { x1 with
    status := 200, statusText := "OK", data := ""
    response := XhrResponse.nullJs, responseText := none
    requestHeaders := [], responseHeaders := [] }

/-- Source `open(method, url, async, user, password)` (named `openXhr`
because `open` is a Lean keyword): full reset, transition to OPENED, then
record the call arguments; when `url` is `undefined`, the single positional
argument is the URL and the method defaults to GET. -/
def openXhr (method : String) (url : Option String) (isAsync : Bool)
    (user password : Option String) (x : Xhr) : Xhr × List Evt :=
  let x1 := reset x
  let r := setReadyState 1 x1
  match url with
  | none => ({ r.1 with url := method, method := "GET" }, r.2)
  | some u =>
      ({ r.1 with
         url := u, method := method, isAsync := some isAsync,
         user := user, password := password }, r.2)

/-- Source `abort()`: only while `UNSENT < readyState < DONE`, reset the
state to UNSENT (which fires no `readystatechange`) and trigger an `abort`
event; otherwise do nothing. -/
def abort (x : Xhr) : Xhr × List Evt :=
  if 0 < x.readyState ∧ x.readyState < 4 then
    let r := setReadyState 0 x
    (r.1, r.2 ++ [Evt.abort])
  else (x, [])

/-- Source `setRequestHeader(name, value)`: appends into the request Header
Store. -/
def setRequestHeader (name value : String) (x : Xhr) : Xhr :=
  { x with requestHeaders := x.requestHeaders ++ [(name, value)] }

/-- Source `getResponseHeader(name)`: `null` while headers have not been
received, otherwise the case-insensitive Header Store lookup. -/
def getResponseHeader (x : Xhr) (name : String) : Option String :=
  if x.readyState < 2 then none
  else headersGet x.responseHeaders name

/-- Source `addEventListener(name, listener)`: appends to the ordered
listener list. -/
def addEventListener (name : String) (listener : Nat) (x : Xhr) : Xhr :=
  { x with events := x.events ++ [(name, listener)] }

/-- Source `removeEventListener(name, listener)`: keeps exactly the stored
entries whose name differs from `name` AND whose listener differs from
`listener` (the filter predicate as written in the source). -/
def removeEventListener (name : String) (listener : Nat) (x : Xhr) : Xhr :=
  { x with events := x.events.filter (fun ev => ev.1 != name && ev.2 != listener) }

/-- Source `getResponseBody(body)`: coerces the textual mock body (absent
treated as empty string) according to `responseType`; json mode parses via
`parseJson`, blob mode tags the text with the `content-type` response header
(JS-falsy value defaulting to "text/plain"), arraybuffer mode encodes the
bytes, and the default mode returns the text unchanged. -/
def getResponseBody (x : Xhr) (body : Option String) : XhrResponse :=
  let textBody := body.getD ""
  if x.responseType = "json" then XhrResponse.jsonV (parseJson textBody)
  else if x.responseType = "blob" then
    XhrResponse.blob textBody (jsOrStr (getResponseHeader x "content-type") "text/plain")
  else if x.responseType = "arraybuffer" then XhrResponse.buffer (bufferFrom textBody)
  else XhrResponse.text textBody

/-- The status/statusText/response-header assignment of the mocked-response
path, performed right after the `loadstart` trigger (defaults 200 / "OK" /
empty Header Store). -/
def mockHeaderStage (m : MockedResponse) (x : Xhr) : Xhr :=
  { x with
    status := jsOrNat m.status 200
    statusText := jsOrStr m.statusText "OK"
    responseHeaders := m.headers.getD [] }

/-- The Mocked-Response Path of `send` (the resolver settled with a Mock
Response Descriptor): trigger `loadstart`; set status, statusText and
response headers; transition to HEADERS_RECEIVED; coerce and store the
response body; when the raw body and the coerced response are both truthy,
transition to LOADING and trigger one `progress` event carrying the byte
length of the body; transition to DONE unconditionally; trigger `load` then
`loadend`. -/
def handleMockedResponse (m : MockedResponse) (x : Xhr) : Xhr × List Evt :=
  let r2 := setReadyState 2 (mockHeaderStage m x)
  let x3 : Xhr := { r2.1 with
    response := getResponseBody r2.1 m.body
    responseText := some (jsOrStr m.body "") }
  let r4 : Xhr × List Evt :=
    if jsTruthyOptStr m.body && responseTruthy x3.response then
      let ra := setReadyState 3 x3
      let len := (bufferFrom (m.body.getD "")).length
      (ra.1, ra.2 ++ [Evt.progress len len])
    else (x3, [])
  let r5 := setReadyState 4 r4.1
  (r5.1, Evt.loadstart :: (r2.2 ++ r4.2 ++ r5.2 ++ [Evt.load, Evt.loadend]))

/-- The resolver-failure path of `send` (the resolver raised or its promise
rejected): trigger `error`, then perform the `abort()` transition. -/
def handleResolverError (x : Xhr) : Xhr × List Evt :=
  let r := abort x
  (r.1, Evt.error :: r.2)

/-- Outcome of the Resolver Invocation Pipeline for one `send`. The `until`
wrapper of the source captures a raised/rejected resolver as a value
(`failure`) instead of letting it escape as an unhandled rejection, so the
continuation is a total function of this outcome. -/
inductive ResolverOutcome where
  | failure
  | mocked (m : MockedResponse)
  | passthrough

/-- The continuation that `send` attaches to the resolver promise, as a
function of the captured outcome and of the instance state at settlement
time. The passthrough branch drives a real client instance and fires no
event on this instance synchronously; its setup is modelled by
`passthroughSetup`. -/
def handleResolverOutcome : ResolverOutcome → Xhr → Xhr × List Evt
  | ResolverOutcome.failure, x => handleResolverError x
  | ResolverOutcome.mocked m, x => handleMockedResponse m x
  | ResolverOutcome.passthrough, x => (x, [])

/-- Value held by a direct-callback slot of the real (pure) request created
on the Passthrough Path: unset (`null`), a forwarded callback identity, or
the intercepted instance's own `abort` method (the value the source assigns
with `request.onabort = this.abort`). -/
inductive SlotVal where
  | unset
  | cb (id : Nat)
  | abortMethod
deriving DecidableEq

/-- Converts a stored callback slot of the intercepted instance to the value
assigned onto the real request. -/
def toSlot : Option Nat → SlotVal
  | some i => SlotVal.cb i
  | none => SlotVal.unset

/-- Observable configuration of the real client instance created by the
Passthrough Adapter: its direct-callback slots, registered listeners,
request headers and timeout. -/
structure RealRequest where
  onabort : SlotVal
  onerror : SlotVal
  ontimeout : SlotVal
  onload : SlotVal
  onloadstart : SlotVal
  onloadend : SlotVal
  onprogress : SlotVal
  onreadystatechange : SlotVal
  listeners : List (String × Nat)
  reqHeaders : HeadersL
  timeoutMs : Option Nat

/-- A freshly constructed real request, before the adapter configures it. -/
def freshRealRequest : RealRequest :=
  { onabort := SlotVal.unset, onerror := SlotVal.unset
    ontimeout := SlotVal.unset, onload := SlotVal.unset
    onloadstart := SlotVal.unset, onloadend := SlotVal.unset
    onprogress := SlotVal.unset, onreadystatechange := SlotVal.unset
    listeners := [], reqHeaders := [], timeoutMs := none }

/-- Source `propagateCallbacks(request)`: assigns each direct-callback slot
of the intercepted instance onto the real request, except that the line
`request.onabort = this.abort` assigns the instance's `abort` method rather
than its `onabort` slot. -/
def propagateCallbacks (x : Xhr) (r : RealRequest) : RealRequest :=
  { r with
    onabort := SlotVal.abortMethod
    onerror := toSlot x.onerror
    ontimeout := toSlot x.ontimeout
    onload := toSlot x.onload
    onloadstart := toSlot x.onloadstart
    onloadend := toSlot x.onloadend
    onprogress := toSlot x.onprogress
    onreadystatechange := toSlot x.onreadystatechange }

/-- Source `propagateListeners(request)`: `addEventListener` on the real
request for every stored `(name, listener)` pair, in registration order. -/
def propagateListeners (x : Xhr) (r : RealRequest) : RealRequest :=
  { r with listeners := r.listeners ++ x.events }

/-- Source `propagateHeaders(request, headers)`: `setRequestHeader` on the
real request for every raw Header Store entry, preserving casing and
order. -/
def propagateHeaders (x : Xhr) (r : RealRequest) : RealRequest :=
  { r with reqHeaders := r.reqHeaders ++ x.requestHeaders }

/-- The Passthrough Path configuration steps of `send`: forward the callback
slots, the registered listeners and the request headers onto the real
request, then the timeout when the call is asynchronous. -/
def passthroughSetup (x : Xhr) (r : RealRequest) : RealRequest :=
  let r1 := propagateCallbacks x r
  let r2 := propagateListeners x r1
  let r3 := propagateHeaders x r2
  if x.isAsync = some true then { r3 with timeoutMs := some x.timeout } else r3

/-- Folds a sequence of `setReadyState` calls over an instance, concatenating
the fired events. -/
def applyStates : List Nat → Xhr → Xhr × List Evt
  | [], x => (x, [])
  | s :: ss, x =>
    let r := setReadyState s x
    let r2 := applyStates ss r.1
    (r2.1, r.2 ++ r2.2)

/-- Spec-side description (from the claim's words) of which states of a
`setReadyState` call sequence are newly reached and non-UNSENT, starting
from the given current state: exactly those fire a `readystatechange`. -/
def statesReached : List Nat → Nat → List Nat
  | [], _ => []
  | s :: ss, cur =>
    if s = cur then statesReached ss cur
    else if s = 0 then statesReached ss s
    else s :: statesReached ss s

/-- Spec-side Body Coercer, written from the spec's §4.5 words: json mode
parses structured data and returns the unparseable sentinel (`null`) on a
parse failure instead of raising; blob mode wraps the text as binary data
tagged with the content-type response header value, defaulting to
"text/plain" when that header is absent (a JavaScript-falsy empty value
counts as absent, as in the source's `||` default); arraybuffer mode encodes
the text into a raw byte buffer; the default mode returns the text
unchanged, with an absent body treated as the empty string. -/
def bodyCoercerSpec (responseType : String) (contentType : Option String)
    (body : Option String) : XhrResponse :=
  let text := body.getD ""
  if responseType = "json" then
    match jsonParse text with
    | some v => XhrResponse.jsonV v
    | none => XhrResponse.jsonV JsonVal.null
  else if responseType = "blob" then
    XhrResponse.blob text
      (match contentType with
       | some v => if v = "" then "text/plain" else v
       | none => "text/plain")
  else if responseType = "arraybuffer" then XhrResponse.buffer (bufferFrom text)
  else XhrResponse.text text

/-- Whether a `response` value is a plain JavaScript string: the text mode
output is a string, and so is a json mode output whose parsed JSON value is
a string literal (JSON.parse of a string literal yields a plain string);
blobs, buffers, `null` and every other parsed JSON value are not strings. -/
def isStringValue : XhrResponse → Bool
  | XhrResponse.text _ => true
  | XhrResponse.jsonV (JsonVal.str _) => true
  | _ => false

/-- Whether a parsed JSON value is a string literal. -/
def isJsonStr : JsonVal → Bool
  | JsonVal.str _ => true
  | _ => false

/-- A freshly opened instance (state OPENED, default text responseType). -/
def xOpened : Xhr := { newXhr with readyState := 1 }

/-- An opened instance whose responseType is "json". -/
def xJsonOpened : Xhr := { newXhr with readyState := 1, responseType := "json" }

/-- An instance in state HEADERS_RECEIVED whose responseType is "json". -/
def xJsonHeadersReceived : Xhr :=
  { newXhr with readyState := 2, responseType := "json" }

/-- An instance with one registered ("load", listener 1) entry. -/
def xWithLoadListener : Xhr := { newXhr with events := [("load", 1)] }

/-- An asynchronous instance with every direct-callback slot set to a
distinct callback, two registered listeners and two request headers. -/
def xPassthrough : Xhr :=
  { newXhr with
    readyState := 1, isAsync := some true, timeout := 1500
    onabort := some 1, onerror := some 2, ontimeout := some 3
    onload := some 4, onloadstart := some 5, onloadend := some 6
    onprogress := some 7, onreadystatechange := some 8
    events := [("load", 21), ("error", 22)]
    requestHeaders := [("X-Custom", "a"), ("Content-Type", "text/plain")] }

/-- The instance obtained by opening a request and then calling `abort()`
while the resolver continuation of its `send` is still pending. -/
def xAfterAbort : Xhr :=
  (abort (openXhr "GET" (some "https://test.mock/") true none none newXhr).1).1

/-- A Mock Response Descriptor whose body is "hello". -/
def mHello : MockedResponse := { body := some "hello" }

/-- A Mock Response Descriptor with no body. -/
def mNoBody : MockedResponse := {}

/-- A Mock Response Descriptor whose body is the empty string. -/
def mEmptyStr : MockedResponse := { body := some "" }

/-- A Mock Response Descriptor whose non-empty body is not valid JSON. -/
def mNotJson : MockedResponse := { body := some "\x7bnot json" }

/-- A Mock Response Descriptor whose body is the JSON string literal
`"hello"` (quotes included in the raw text). -/
def mJsonStr : MockedResponse := { body := some "\"hello\"" }

/-- A `setReadyState` call always leaves `readyState` at the requested
state. -/
theorem setReadyState_state (n : Nat) (x : Xhr) :
    (setReadyState n x).1.readyState = n := by
  unfold setReadyState
  split
  · rename_i h
    exact h.symm
  · split <;> rfl

/-- A `setReadyState` call never changes the `response` property. -/
theorem setReadyState_response (n : Nat) (x : Xhr) :
    (setReadyState n x).1.response = x.response := by
  unfold setReadyState
  split
  · rfl
  · split <;> rfl

/-- A `setReadyState` call never changes the `responseText` property. -/
theorem setReadyState_responseText (n : Nat) (x : Xhr) :
    (setReadyState n x).1.responseText = x.responseText := by
  unfold setReadyState
  split
  · rfl
  · split <;> rfl

/-- A `setReadyState` call never changes the `responseType` property. -/
theorem setReadyState_responseType (n : Nat) (x : Xhr) :
    (setReadyState n x).1.responseType = x.responseType := by
  unfold setReadyState
  split
  · rfl
  · split <;> rfl

/-- The event log of a `setReadyState` call sequence is exactly one
`readystatechange` per newly reached non-UNSENT state. -/
theorem applyStates_log (ss : List Nat) (x : Xhr) :
    (applyStates ss x).2
      = (statesReached ss x.readyState).map Evt.readystatechange := by
  induction ss generalizing x with
  | nil => rfl
  | cons s ss ih =>
    by_cases h : s = x.readyState
    · simp [applyStates, statesReached, setReadyState, h, ih]
    · by_cases h0 : s = 0
      · subst h0
        simp [applyStates, statesReached, setReadyState, h, ih]
      · simp [applyStates, statesReached, setReadyState, h, h0, ih]

/-- The final `response` of the mocked path is the Body Coercer output
computed at the HEADERS_RECEIVED stage. -/
theorem handleMockedResponse_response_eq (m : MockedResponse) (x : Xhr) :
    (handleMockedResponse m x).1.response
      = getResponseBody (setReadyState 2 (mockHeaderStage m x)).1 m.body := by
  simp only [handleMockedResponse]
  rw [setReadyState_response]
  split
  · simp [setReadyState_response]
  · rfl

/-- The final `responseText` of the mocked path is the raw mock body string
(the empty string when the body is absent), independent of the
responseType. -/
theorem handleMockedResponse_responseText_eq (m : MockedResponse) (x : Xhr) :
    (handleMockedResponse m x).1.responseText = some (jsOrStr m.body "") := by
  simp only [handleMockedResponse]
  rw [setReadyState_responseText]
  split
  · simp [setReadyState_responseText]
  · rfl

/-- C1 (evaluation of the source filter at the failing inputs): the
`removeEventListener` filter deletes a stored ("load", listener 1) entry
both when only the name matches (call with listener 2) and when only the
listener matches (call with name "error"); only a call where both differ
retains the entry. The claim — and the spec's stated intent — is that an
entry is removed only when name AND listener both match. -/
theorem removeEventListener_single_match_removed :
    (removeEventListener "load" 2 xWithLoadListener).events = [] ∧
    (removeEventListener "error" 1 xWithLoadListener).events = [] ∧
    (removeEventListener "error" 2 xWithLoadListener).events = [("load", 1)] := by
  refine ⟨rfl, rfl, rfl⟩

/-- C2: when the resolver raises or rejects, the captured failure outcome
(never an escaping unhandled rejection, by totality of
`handleResolverOutcome` over `ResolverOutcome`) drives the instance from
OPENED through exactly the event sequence `error` then `abort` — no `load`
or `loadend` — and the final readyState is UNSENT (0), never DONE. -/
theorem resolver_failure_error_abort_unsent (x : Xhr) (h : x.readyState = 1) :
    (handleResolverOutcome ResolverOutcome.failure x).1.readyState = 0 ∧
    (handleResolverOutcome ResolverOutcome.failure x).2 = [Evt.error, Evt.abort] := by
  constructor <;>
    simp [handleResolverOutcome, handleResolverError, abort, setReadyState, h]

/-- Witness for C2 at a concrete opened instance. -/
theorem resolver_failure_error_abort_unsent_witness :
    (handleResolverOutcome ResolverOutcome.failure xOpened).1.readyState = 0 ∧
    (handleResolverOutcome ResolverOutcome.failure xOpened).2 = [Evt.error, Evt.abort] :=
  resolver_failure_error_abort_unsent xOpened rfl

/-- C7: `abort()` resets to UNSENT and fires an `abort` event (and nothing
else — the UNSENT reset fires no `readystatechange`) exactly when
`UNSENT < readyState < DONE`; otherwise the instance is unchanged and no
event fires. -/
theorem abort_fires_iff_between_unsent_done (x : Xhr) :
    abort x = (if 0 < x.readyState ∧ x.readyState < 4
      then ({ x with readyState := 0 }, [Evt.abort]) else (x, [])) := by
  unfold abort
  split
  · rename_i hcond
    have h0 : ¬ ((0 : Nat) = x.readyState) := by omega
    simp [setReadyState, h0, if_pos hcond]
  · rename_i hcond
    simp [if_neg hcond]

/-- C3: on the mocked path with an empty or absent body, the instance still
reaches DONE and fires `load` then `loadend` after the DONE transition; no
LOADING transition and no `progress` event occur (the event log contains no
`readystatechange 3` and no `progress`). -/
theorem mocked_empty_body_done_load_loadend (m : MockedResponse) (x : Xhr)
    (h1 : x.readyState = 1) (hb : m.body = none ∨ m.body = some "") :
    (handleMockedResponse m x).1.readyState = 4 ∧
    (handleMockedResponse m x).2
      = [Evt.loadstart, Evt.readystatechange 2, Evt.readystatechange 4,
         Evt.load, Evt.loadend] := by
  have hfalse : jsTruthyOptStr m.body = false := by
    rcases hb with hb | hb <;> simp [jsTruthyOptStr, hb]
  constructor
  · simp [handleMockedResponse, setReadyState_state]
  · simp [handleMockedResponse, mockHeaderStage, setReadyState, hfalse, h1]

/-- Witness for C3 at a concrete opened instance and bodyless descriptor. -/
theorem mocked_empty_body_done_load_loadend_witness :
    (handleMockedResponse mNoBody xOpened).1.readyState = 4 ∧
    (handleMockedResponse mNoBody xOpened).2
      = [Evt.loadstart, Evt.readystatechange 2, Evt.readystatechange 4,
         Evt.load, Evt.loadend] :=
  mocked_empty_body_done_load_loadend mNoBody xOpened rfl (Or.inl rfl)

/-- C4 counterexample to the claim as stated: `mNotJson` has a non-empty
body, yet on a json-mode instance the mocked path fires no `progress` event
and never enters LOADING (the body coerces to the falsy unparseable
sentinel, and the source guards the LOADING/progress step with
`mockedResponse.body && this.response`). -/
theorem mocked_json_unparseable_no_progress :
    mNotJson.body = some "\x7bnot json" ∧
    (handleMockedResponse mNotJson xJsonOpened).2
      = [Evt.loadstart, Evt.readystatechange 2, Evt.readystatechange 4,
         Evt.load, Evt.loadend] := ⟨rfl, rfl⟩

/-- C4 (amended): for a Mock Response Descriptor with a non-empty body whose
coerced response value is JavaScript-truthy, the mocked path transitions to
LOADING strictly before DONE and fires exactly one `progress` event whose
`loaded` and `total` both equal the byte length of the raw mock body (which
equals the coerced body's byte length in the text, blob and arraybuffer
modes). -/
theorem mocked_nonempty_truthy_body_progress (m : MockedResponse) (x : Xhr)
    (b : String) (h1 : x.readyState = 1) (hb : m.body = some b) (hbne : b ≠ "")
    (htr : responseTruthy
        (getResponseBody (setReadyState 2 (mockHeaderStage m x)).1 m.body) = true) :
    (handleMockedResponse m x).1.readyState = 4 ∧
    (handleMockedResponse m x).2
      = [Evt.loadstart, Evt.readystatechange 2, Evt.readystatechange 3,
         Evt.progress (bufferFrom b).length (bufferFrom b).length,
         Evt.readystatechange 4, Evt.load, Evt.loadend] := by
  have hcond : jsTruthyOptStr m.body = true := by simp [jsTruthyOptStr, hb, hbne]
  constructor
  · simp [handleMockedResponse, setReadyState_state]
  · simp only [handleMockedResponse]
    split
    · rename_i hspl
      simp [mockHeaderStage, setReadyState, h1, hb]
    · rename_i hspl
      exfalso
      apply hspl
      simp only [Bool.and_eq_true]
      exact ⟨hcond, htr⟩

/-- Witness for C4 (amended) at a concrete opened text-mode instance. -/
theorem mocked_nonempty_truthy_body_progress_witness :
    (handleMockedResponse mHello xOpened).1.readyState = 4 ∧
    (handleMockedResponse mHello xOpened).2
      = [Evt.loadstart, Evt.readystatechange 2, Evt.readystatechange 3,
         Evt.progress 5 5, Evt.readystatechange 4, Evt.load, Evt.loadend] :=
  mocked_nonempty_truthy_body_progress mHello xOpened "hello" rfl rfl
    (by decide) (by rfl)

/-- C5 (evaluation at the failing input): the passthrough setup forwards
every other callback slot with its own value, the listeners in registration
order and every request header, but assigns the instance's `abort` method —
not the stored `onabort` callback — to the real request's onabort slot. -/
theorem passthrough_onabort_slot_misassigned :
    (passthroughSetup xPassthrough freshRealRequest).onabort = SlotVal.abortMethod ∧
    xPassthrough.onabort = some 1 ∧
    SlotVal.abortMethod ≠ toSlot xPassthrough.onabort ∧
    (passthroughSetup xPassthrough freshRealRequest).onerror = SlotVal.cb 2 ∧
    (passthroughSetup xPassthrough freshRealRequest).ontimeout = SlotVal.cb 3 ∧
    (passthroughSetup xPassthrough freshRealRequest).onload = SlotVal.cb 4 ∧
    (passthroughSetup xPassthrough freshRealRequest).onloadstart = SlotVal.cb 5 ∧
    (passthroughSetup xPassthrough freshRealRequest).onloadend = SlotVal.cb 6 ∧
    (passthroughSetup xPassthrough freshRealRequest).onprogress = SlotVal.cb 7 ∧
    (passthroughSetup xPassthrough freshRealRequest).onreadystatechange = SlotVal.cb 8 ∧
    (passthroughSetup xPassthrough freshRealRequest).listeners
      = [("load", 21), ("error", 22)] ∧
    (passthroughSetup xPassthrough freshRealRequest).reqHeaders
      = [("X-Custom", "a"), ("Content-Type", "text/plain")] := by
  refine ⟨rfl, rfl, by decide, rfl, rfl, rfl, rfl, rfl, rfl, rfl, rfl, rfl⟩

/-- C6: over any sequence of `setReadyState` calls, `readystatechange` fires
exactly once per newly reached non-UNSENT state (the logged event carries
the already-updated readyState); a call with the current state fires nothing
and leaves the instance unchanged; and the reset transition to UNSENT fires
no `readystatechange`. -/
theorem readystatechange_once_per_distinct_state (ss : List Nat) (x : Xhr) :
    (applyStates ss x).2
      = (statesReached ss x.readyState).map Evt.readystatechange ∧
    setReadyState x.readyState x = (x, []) ∧
    (setReadyState 0 x).2 = [] := by
  refine ⟨applyStates_log ss x, by simp [setReadyState], ?_⟩
  unfold setReadyState
  split
  · rfl
  · simp

/-- The source body coercer agrees with the spec-side Body Coercer on every
instance and body. -/
theorem getResponseBody_eq_spec (x : Xhr) (body : Option String) :
    getResponseBody x body
      = bodyCoercerSpec x.responseType (getResponseHeader x "content-type") body := by
  unfold getResponseBody bodyCoercerSpec
  by_cases hj : x.responseType = "json"
  · simp only [hj, if_pos]
    cases h : jsonParse (body.getD "") <;> simp [parseJson, h]
  · by_cases hbl : x.responseType = "blob"
    · simp only [hj, hbl, if_neg, if_pos, if_true, if_false, if_neg hj]
      cases h : getResponseHeader x "content-type" with
      | none => simp [jsOrStr, hbl]
      | some v =>
        by_cases hv : v = "" <;> simp [jsOrStr, hv, hbl]
    · by_cases ha : x.responseType = "arraybuffer" <;> simp [hj, hbl, ha]

/-- C8: the body coercer is a total function that never raises and matches
the spec's per-mode description (`bodyCoercerSpec`); in particular, in json
mode a parse failure returns the unparseable sentinel (`null`) instead of
propagating an error. -/
theorem getResponseBody_matches_spec_coercer (x : Xhr) (body : Option String) :
    (getResponseBody x body
      = bodyCoercerSpec x.responseType (getResponseHeader x "content-type") body) ∧
    (x.responseType = "json" → jsonParse (body.getD "") = none →
      getResponseBody x body = XhrResponse.jsonV JsonVal.null) := by
  refine ⟨getResponseBody_eq_spec x body, fun hj hp => ?_⟩
  simp [getResponseBody, hj, parseJson, hp]

/-- Witness for C8: the spec's scenario — json mode, mock body not valid
JSON — yields the sentinel, with no failure raised. -/
theorem getResponseBody_unparseable_sentinel_witness :
    getResponseBody xJsonHeadersReceived (some "\x7bnot json")
      = XhrResponse.jsonV JsonVal.null :=
  (getResponseBody_matches_spec_coercer xJsonHeadersReceived (some "\x7bnot json")).2
    rfl rfl

/-- C9 (evaluation at the failing interleaving): after `open` and `abort`
the instance is back at UNSENT, yet applying the pending mocked-response
continuation (which has no staleness check in the source) raises readyState
to DONE again and fires a full lifecycle event sequence, instead of being
ignored as the claim requires. -/
theorem late_mock_settlement_not_ignored :
    xAfterAbort.readyState = 0 ∧
    (handleMockedResponse mHello xAfterAbort).1.readyState = 4 ∧
    (handleMockedResponse mHello xAfterAbort).2
      = [Evt.loadstart, Evt.readystatechange 2, Evt.readystatechange 3,
         Evt.progress 5 5, Evt.readystatechange 4, Evt.load, Evt.loadend] :=
  ⟨rfl, rfl, rfl⟩

/-- A json-mode `response` value is a plain string exactly when the wrapped
parsed JSON value is a string literal. -/
theorem isStringValue_jsonV (v : JsonVal) :
    isStringValue (XhrResponse.jsonV v) = isJsonStr v := by
  cases v <;> rfl

/-- C10 counterexample to the claim as stated: under responseType "json",
the mock body `"hello"` (a JSON string literal) coerces to the plain string
value `hello`, so `response` has the same plain-string shape as
`responseText` — they do not differ in shape at this input. -/
theorem mocked_json_string_body_same_shape :
    xJsonOpened.responseType = "json" ∧
    (handleMockedResponse mJsonStr xJsonOpened).1.responseText = some "\"hello\"" ∧
    (handleMockedResponse mJsonStr xJsonOpened).1.response
      = XhrResponse.jsonV (JsonVal.str "hello") ∧
    isStringValue (handleMockedResponse mJsonStr xJsonOpened).1.response = true :=
  ⟨rfl, rfl, rfl, rfl⟩

/-- C10 (amended): on the mocked path, `responseText` is always the raw mock
body string (empty when absent), independent of the responseType, while
`response` holds the value coerced by the body coercer. Under responseType
"blob" or "arraybuffer" the stored `response` is never a plain string, so it
always differs in shape from `responseText`; under "json" the stored
`response` is a plain string exactly when the parsed JSON value is a string
literal, and differs in shape from `responseText` otherwise. -/
theorem mocked_responseText_raw_shape_cases (m : MockedResponse) (x : Xhr) :
    (handleMockedResponse m x).1.responseText = some (jsOrStr m.body "") ∧
    (handleMockedResponse m x).1.response
      = getResponseBody (setReadyState 2 (mockHeaderStage m x)).1 m.body ∧
    ((x.responseType = "blob" ∨ x.responseType = "arraybuffer") →
      isStringValue (handleMockedResponse m x).1.response = false) ∧
    (x.responseType = "json" →
      isStringValue (handleMockedResponse m x).1.response
        = isJsonStr (parseJson (m.body.getD ""))) := by
  have hty : (setReadyState 2 (mockHeaderStage m x)).1.responseType = x.responseType := by
    rw [setReadyState_responseType]
    rfl
  refine ⟨handleMockedResponse_responseText_eq m x,
    handleMockedResponse_response_eq m x, fun hrt => ?_, fun hj => ?_⟩
  · rw [handleMockedResponse_response_eq]
    rcases hrt with h | h <;> simp [getResponseBody, hty, h, isStringValue]
  · rw [handleMockedResponse_response_eq]
    simp [getResponseBody, hty, hj, isStringValue_jsonV]

/-- Witness for C10 (amended) at concrete json-mode inputs: the raw body is
kept in `responseText`, and with an unparseable body the sentinel response
is not string-shaped. -/
theorem mocked_responseText_raw_shape_cases_witness :
    (handleMockedResponse mNotJson xJsonOpened).1.responseText = some "\x7bnot json" ∧
    isStringValue (handleMockedResponse mNotJson xJsonOpened).1.response = false := by
  refine ⟨(mocked_responseText_raw_shape_cases mNotJson xJsonOpened).1, ?_⟩
  have h := (mocked_responseText_raw_shape_cases mNotJson xJsonOpened).2.2.2 rfl
  exact h.trans rfl

end XHR
